import Mathlib

/-!
Verification of the optimization backends of the `projet-ro` repository.

The development shallowly embeds the production-mix optimization pipeline
(`prod-problem-ro/backend`) and the vehicle-routing solver
(`vehicle-routing/core/solver.py`) in Lean.

Modelling conventions:
* Python numbers are modelled as rationals (`ℚ`); all tolerance constants
  (`1e-6`, `1e-8`, `1e-9`) become the corresponding rationals.
* A Python dict whose keys may be absent is modelled as a structure with
  `Option` fields; reading a key that may be absent goes through `pyGet`,
  which raises a modelled `KeyError`.  A key carrying an explicit `null`
  value is modelled as an absent key.
* Raising an exception is modelled by the `Except PyError` monad (`PyM`).
  `try/except ValueError` is modelled by `catchValueError`.
* The LP/MILP engine (Gurobi) is a black box: a solved model is modelled by
  its observable outcome (status, objective value, variable values, IIS
  membership flags of the constraints).
-/

namespace ProjetRO

/-- A Python exception, as far as the embedded code can raise or catch one:
`KeyError` from a missing dict key, `ValueError` from the optimizer registry. -/
inductive PyError : Type where
  | keyError (key : String)
  | valueError (msg : String)
deriving DecidableEq, Repr

/-- Computations that can raise a modelled Python exception. -/
abbrev PyM (α : Type) : Type := Except PyError α

/-- `d[k]`: read a dict key that may be absent; raises `KeyError` when it is. -/
def pyGet {α : Type} (field : Option α) (key : String) : PyM α :=
  match field with
  | some v => Except.ok v
  | none => Except.error (PyError.keyError key)

/-- `dict.get(k, default)`. -/
def pyGetD {α : Type} (field : Option α) (default : α) : α :=
  field.getD default

/-- Python `set.add` on a set of names, modelled as an insertion-ordered
list without duplicates. -/
def setAdd (s : List String) (x : String) : List String :=
  if x ∈ s then s else s ++ [x]

/-- Dict lookup in an association list (first matching key wins; the embedded
dicts are built with distinct keys). -/
def alistGet {α : Type} : List (String × α) → String → Option α
  | [], _ => none
  | p :: rest, k => if p.1 = k then some p.2 else alistGet rest k

/-- `k in d` for an association-list dict. -/
def alistHas {α : Type} (d : List (String × α)) (k : String) : Bool :=
  (alistGet d k).isSome

/-- `d[k] = v` on a Python dict: overwrite in place when the key exists,
append otherwise (insertion order preserved). -/
def dictInsert {α : Type} (d : List (String × α)) (k : String) (v : α) : List (String × α) :=
  if alistHas d k then d.map (fun p => if p.1 = k then (k, v) else p) else d ++ [(k, v)]

/-- `d[k] += v` on a Python dict of numbers: raises `KeyError` when the key
is absent, exactly as Python does. -/
def dictAddM (d : List (String × ℚ)) (k : String) (v : ℚ) : PyM (List (String × ℚ)) :=
  match alistGet d k with
  | none => Except.error (PyError.keyError k)
  | some _ => Except.ok (d.map (fun p => if p.1 = k then (p.1, p.2 + v) else p))

/-- One entry of the `products` list of a request payload
(`{ name, profit_per_unit, cost_per_unit }`, any key possibly absent). -/
structure ProductEntry : Type where
  name : Option String
  profit_per_unit : Option ℚ
  cost_per_unit : Option ℚ
deriving DecidableEq, Repr

/-- One entry of the `resources` list (`{ name, available_capacity }`). -/
structure ResourceEntry : Type where
  name : Option String
  available_capacity : Option ℚ
deriving DecidableEq, Repr

/-- One entry of the `resource_usage` list
(`{ product_name, resource_name, usage_per_unit }`). -/
structure UsageEntry : Type where
  product_name : Option String
  resource_name : Option String
  usage_per_unit : Option ℚ
deriving DecidableEq, Repr

/-- One entry of the optional `demand_constraints` list
(`{ product_name, min_demand?, max_demand? }`). -/
structure DemandEntry : Type where
  product_name : Option String
  min_demand : Option ℚ
  max_demand : Option ℚ
deriving DecidableEq, Repr

/-- The optional `total_constraints` object (`{ min_total?, max_total? }`);
an absent or `null` bound is `none`. -/
structure TotalEntry : Type where
  min_total : Option ℚ
  max_total : Option ℚ
deriving DecidableEq, Repr

/-- A decoded request payload: the top-level dict handed to
`validate_optimization_input` and to the optimizers.  Each field is `none`
when the corresponding key is absent. -/
structure PyData : Type where
  objective : Option String
  products : Option (List ProductEntry)
  resources : Option (List ResourceEntry)
  resource_usage : Option (List UsageEntry)
  demand_constraints : Option (List DemandEntry)
  total_constraints : Option TotalEntry
deriving DecidableEq, Repr

/-- The generator `any(ru['product_name'] == product_name for ru in rus)`
from `validation.py:93`: short-circuits at the first match, and raises
`KeyError` when it reaches an entry without a `product_name` key. -/
def anyUsageForProduct : List UsageEntry → String → PyM Bool
  | [], _ => Except.ok false
  | ru :: rest, product_name => do
    let pn ← pyGet ru.product_name "product_name"
    if pn = product_name then
      Except.ok true
    else
      anyUsageForProduct rest product_name

/-- `validate_optimization_input` (validation.py:9-133).  Returns the pair
`(is_valid, error_messages)`; raises the modelled `KeyError` exactly where
the Python code would. -/
def validate_optimization_input (data : PyData) : PyM (Bool × List String) := do
  let mut errors : List String := []
  -- Check required fields
  if data.objective.isNone then
    errors := errors ++ ["Missing required field: objective"]
  if data.products.isNone then
    errors := errors ++ ["Missing required field: products"]
  if data.resources.isNone then
    errors := errors ++ ["Missing required field: resources"]
  if data.resource_usage.isNone then
    errors := errors ++ ["Missing required field: resource_usage"]
  if errors ≠ [] then
    return (false, errors)
  -- Check objective
  let objective ← pyGet data.objective "objective"
  if objective ≠ "maximize_profit" ∧ objective ≠ "minimize_cost" then
    errors := errors ++ ["Objective must be either maximize_profit or minimize_cost"]
  -- Validate products
  let products ← pyGet data.products "products"
  let mut product_names : List String := []
  for product in products do
    match product.name with
    | none =>
      errors := errors ++ ["Each product must have a name"]
    | some product_name =>
      product_names := setAdd product_names product_name
      match product.profit_per_unit with
      | none =>
        errors := errors ++ [s!"Product {product_name} is missing profit_per_unit"]
      | some v =>
        if v < 0 then
          errors := errors ++ [s!"Product {product_name} has negative profit_per_unit"]
      match product.cost_per_unit with
      | none =>
        errors := errors ++ [s!"Product {product_name} is missing cost_per_unit"]
      | some v =>
        if v < 0 then
          errors := errors ++ [s!"Product {product_name} has negative cost_per_unit"]
  -- Validate resources
  let resources ← pyGet data.resources "resources"
  let mut resource_names : List String := []
  for resource in resources do
    match resource.name with
    | none =>
      errors := errors ++ ["Each resource must have a name"]
    | some resource_name =>
      resource_names := setAdd resource_names resource_name
      match resource.available_capacity with
      | none =>
        errors := errors ++ [s!"Resource {resource_name} is missing available_capacity"]
      | some v =>
        if v < 0 then
          errors := errors ++ [s!"Resource {resource_name} has negative available_capacity"]
  -- Validate resource usage
  let resource_usage ← pyGet data.resource_usage "resource_usage"
  for ru in resource_usage do
    match ru.product_name with
    | none =>
      errors := errors ++ ["Each resource usage entry must specify a product_name"]
    | some pn =>
      if pn ∉ product_names then
        errors := errors ++ [s!"Resource usage references unknown product: {pn}"]
    match ru.resource_name with
    | none =>
      errors := errors ++ ["Each resource usage entry must specify a resource_name"]
    | some rn =>
      if rn ∉ resource_names then
        errors := errors ++ [s!"Resource usage references unknown resource: {rn}"]
    match ru.usage_per_unit with
    | none =>
      -- the message uses ru.get(...), which does not raise
      let pdisp := pyGetD ru.product_name "unknown"
      let rdisp := pyGetD ru.resource_name "unknown"
      errors := errors ++ [s!"Resource usage for {pdisp} and {rdisp} is missing usage_per_unit"]
    | some u =>
      if u < 0 then
        -- the message indexes ru directly, which raises on a missing key
        let pn ← pyGet ru.product_name "product_name"
        let rn ← pyGet ru.resource_name "resource_name"
        errors := errors ++ [s!"Resource usage for {pn} and {rn} has negative usage_per_unit"]
  -- Check if any resource usage is defined for each product
  for product_name in product_names do
    let has_resource_usage ← anyUsageForProduct resource_usage product_name
    if !has_resource_usage then
      errors := errors ++ [s!"Product {product_name} has no resource usage defined"]
  -- Validate demand constraints if present
  match data.demand_constraints with
  | none => pure ()
  | some dcs =>
    for dc in dcs do
      match dc.product_name with
      | none =>
        errors := errors ++ ["Each demand constraint must specify a product_name"]
      | some pn =>
        if pn ∉ product_names then
          errors := errors ++ [s!"Demand constraint references unknown product: {pn}"]
      match dc.min_demand with
      | some m =>
        if m < 0 then
          -- the message indexes dc directly, which raises on a missing key
          let pn ← pyGet dc.product_name "product_name"
          errors := errors ++ [s!"Product {pn} has negative min_demand"]
      | none => pure ()
      match dc.max_demand with
      | some m =>
        if m < 0 then
          let pn ← pyGet dc.product_name "product_name"
          errors := errors ++ [s!"Product {pn} has negative max_demand"]
      | none => pure ()
      match dc.min_demand, dc.max_demand with
      | some m, some M =>
        if m > M then
          let pn ← pyGet dc.product_name "product_name"
          errors := errors ++ [s!"Product {pn} has min_demand greater than max_demand"]
      | _, _ => pure ()
  -- Validate total constraints if present (a `None` or empty object is falsy)
  match data.total_constraints with
  | none => pure ()
  | some tc =>
    match tc.min_total with
    | some m =>
      if m < 0 then
        errors := errors ++ ["Total constraints has negative min_total"]
    | none => pure ()
    match tc.max_total with
    | some m =>
      if m < 0 then
        errors := errors ++ ["Total constraints has negative max_total"]
    | none => pure ()
    match tc.min_total, tc.max_total with
    | some m, some M =>
      if m > M then
        errors := errors ++ ["Total constraints has min_total greater than max_total"]
    | _, _ => pure ()
  return (errors.length == 0, errors)

/-- The reported utilization of one resource
(`{ used, available, utilization_pct }`). -/
structure ResourceUtil : Type where
  used : ℚ
  available : ℚ
  utilization_pct : ℚ
deriving DecidableEq, Repr

/-- The `infeasible_constraints` field: either the list of constraint names
flagged by the IIS, or the sentinel string `"Unknown"`. -/
inductive InfeasibleInfo : Type where
  | names (l : List String)
  | unknown
deriving DecidableEq, Repr

/-- A warning emitted by `validate_solution_feasibility`; each constructor
corresponds to one `warnings.append(...)` site in validation.py, carrying
the data the Python message interpolates. -/
inductive Warning : Type where
  /-- validation.py:151 — the result handed in was not optimal. -/
  | notOptimal (solver_message : String)
  /-- validation.py:157 — `0 < quantity < 1e-6`. -/
  | numericPrecision (product : String) (quantity : ℚ)
  /-- validation.py:183 — recomputed usage differs from the reported one. -/
  | usageMismatch (resource : String) (calculated reported : ℚ)
  /-- validation.py:187 — usage exceeds the available capacity. -/
  | capacityViolation (resource : String) (usage capacity : ℚ)
  /-- validation.py:198 — production below `min_demand`. -/
  | minDemandViolation (product : String) (quantity bound : ℚ)
  /-- validation.py:201 — production above `max_demand`. -/
  | maxDemandViolation (product : String) (quantity bound : ℚ)
  /-- validation.py:210 — total production below `min_total`. -/
  | minTotalViolation (total bound : ℚ)
  /-- validation.py:214 — total production above `max_total`. -/
  | maxTotalViolation (total bound : ℚ)
deriving DecidableEq, Repr

/-- The result dict produced by the solvers and post-processed by the
factory (response envelope of the spec).  Optional keys are `Option`s. -/
structure SolveResult : Type where
  status : String
  solver_message : String
  objective_value : Option ℚ := none
  production_plan : List (String × ℚ) := []
  resource_utilization : List (String × ResourceUtil) := []
  total_production : Option ℚ := none
  infeasible_constraints : Option InfeasibleInfo := none
  feasibility_warnings : Option (List Warning) := none
  validation_errors : Option (List String) := none
deriving DecidableEq, Repr

/-- The warning-accumulation part of `validate_solution_feasibility`
(validation.py:153-214), run on a result whose status is `optimal`.
Reads the input dict exactly where the Python code does; on an input that
passed validation no modelled `KeyError` can fire. -/
def feasibilityWarnings (result : SolveResult) (input_data : PyData) : PyM (List Warning) := do
  let mut warnings : List Warning := []
  let epsilon : ℚ := 1 / 1000000
  -- Check if any production values are extremely small
  for pq in result.production_plan do
    if 0 < pq.2 ∧ pq.2 < epsilon then
      warnings := warnings ++ [Warning.numericPrecision pq.1 pq.2]
  -- resources = {r['name']: r for r in input_data['resources']}
  let resourceList ← pyGet input_data.resources "resources"
  let mut resources : List (String × ℚ) := []
  for r in resourceList do
    let rn ← pyGet r.name "name"
    let cap ← pyGet r.available_capacity "available_capacity"
    resources := dictInsert resources rn cap
  -- resource usage by product and resource
  let ruList ← pyGet input_data.resource_usage "resource_usage"
  let mut resource_usage : List (String × List (String × ℚ)) := []
  for ru in ruList do
    let product_name ← pyGet ru.product_name "product_name"
    let resource_name ← pyGet ru.resource_name "resource_name"
    let upu ← pyGet ru.usage_per_unit "usage_per_unit"
    let inner := pyGetD (alistGet resource_usage product_name) []
    resource_usage := dictInsert resource_usage product_name (dictInsert inner resource_name upu)
  -- Calculate actual resource usage based on the production plan
  let mut calculated_usage : List (String × ℚ) := resources.map (fun r => (r.1, 0))
  for pq in result.production_plan do
    match alistGet resource_usage pq.1 with
    | none => pure ()
    | some inner =>
      for ru in inner do
        calculated_usage ← dictAddM calculated_usage ru.1 (ru.2 * pq.2)
  -- Compare with reported utilization; check capacity
  for cu in calculated_usage do
    match alistGet result.resource_utilization cu.1 with
    | none => pure ()
    | some util =>
      if |cu.2 - util.used| > epsilon then
        warnings := warnings ++ [Warning.usageMismatch cu.1 cu.2 util.used]
    match alistGet resources cu.1 with
    | none => pure ()  -- unreachable: calculated_usage is keyed by resources
    | some cap =>
      if cu.2 > cap + epsilon then
        warnings := warnings ++ [Warning.capacityViolation cu.1 cu.2 cap]
  -- Check demand constraints if they exist
  match input_data.demand_constraints with
  | none => pure ()
  | some dcList =>
    let mut demand_constraints : List (String × DemandEntry) := []
    for dc in dcList do
      let pn ← pyGet dc.product_name "product_name"
      demand_constraints := dictInsert demand_constraints pn dc
    for pq in result.production_plan do
      match alistGet demand_constraints pq.1 with
      | none => pure ()
      | some dc =>
        match dc.min_demand with
        | some m =>
          if pq.2 < m - epsilon then
            warnings := warnings ++ [Warning.minDemandViolation pq.1 pq.2 m]
        | none => pure ()
        match dc.max_demand with
        | some m =>
          if pq.2 > m + epsilon then
            warnings := warnings ++ [Warning.maxDemandViolation pq.1 pq.2 m]
        | none => pure ()
  -- Check total production constraints if they exist
  match input_data.total_constraints with
  | none => pure ()
  | some tc =>
    let total_production := (result.production_plan.map Prod.snd).sum
    match tc.min_total with
    | some m =>
      if total_production < m - epsilon then
        warnings := warnings ++ [Warning.minTotalViolation total_production m]
    | none => pure ()
    match tc.max_total with
    | some m =>
      if total_production > m + epsilon then
        warnings := warnings ++ [Warning.maxTotalViolation total_production m]
    | none => pure ()
  return warnings

/-- `validate_solution_feasibility` (validation.py:136-216): returns
`(is_feasible, warnings)`; a non-optimal input short-circuits, otherwise
`is_feasible` is `len(warnings) == 0`. -/
def validate_solution_feasibility (result : SolveResult) (input_data : PyData) :
    PyM (Bool × List Warning) := do
  if result.status ≠ "optimal" then
    return (false, [Warning.notOptimal result.solver_message])
  let warnings ← feasibilityWarnings result input_data
  return (warnings.length == 0, warnings)

/-- The status a Gurobi model reports after `optimize()`, restricted to the
cases base.py distinguishes; `other` carries the raw status code. -/
inductive GRBStatus : Type where
  | optimal
  | infeasible
  | unbounded
  | other (code : ℕ)
deriving DecidableEq, Repr

/-- The observable outcome of a solved production LP: the engine status, the
objective value, and (after `computeIIS`) the `(ConstrName, IISConstr)` flag
of every constraint of the model.  Variable values travel separately as the
solved values of `production_vars`. -/
structure SolvedModel : Type where
  status : GRBStatus
  objVal : ℚ
  constrs : List (String × Bool)
deriving Repr

namespace ProductionOptimizerBase

/-- `_calculate_total_production` (base.py:235-249): sums the solved
variable values (a solved `Var` is modelled by its value, so the
`var.x is not None` guard is always taken). -/
def calculate_total_production (production_vars : List (String × ℚ)) : ℚ :=
  production_vars.foldl (fun total pv => total + pv.2) 0

/-- `_get_resource_utilization` (base.py:198-233). -/
def get_resource_utilization (resources : List (String × ℚ))
    (production_vars : List (String × ℚ))
    (resource_usage : List (String × List (String × ℚ))) :
    List (String × ResourceUtil) :=
  resources.map (fun r =>
    let available := r.2
    let used := resource_usage.foldl (fun used pu =>
      match alistGet pu.2 r.1, alistGet production_vars pu.1 with
      | some usage, some x => used + usage * x
      | _, _ => used) 0
    (r.1, { used := used, available := available
            utilization_pct := if available > 0 then used / available * 100 else 0 }))

/-- The loop of base.py:290-292: collect the names of the constraints whose
`IISConstr` flag is set, in model order. -/
def collectIIS (constrs : List (String × Bool)) : List String :=
  constrs.foldl (fun acc c => if c.2 then acc ++ [c.1] else acc) []

/-- `_prepare_result` (base.py:251-310).  `resources` is the post-extraction
name-to-capacity dict, `resource_usage` the nested usage dict,
`production_vars` the production variables with their solved values. -/
def prepare_result (model : SolvedModel) (production_vars : List (String × ℚ))
    (resources : List (String × ℚ))
    (resource_usage : List (String × List (String × ℚ))) : SolveResult :=
  match model.status with
  | GRBStatus.optimal =>
    -- Round small values to zero to handle numerical precision issues
    let epsilon : ℚ := 1 / 100000000
    let production_plan := production_vars.map (fun pv =>
      if |pv.2| < epsilon then (pv.1, (0 : ℚ)) else (pv.1, pv.2))
    let total_production := calculate_total_production production_vars
    { status := "optimal"
      objective_value := some model.objVal
      production_plan := production_plan
      resource_utilization := get_resource_utilization resources production_vars resource_usage
      total_production := some total_production
      solver_message := "Optimal solution found" }
  | GRBStatus.infeasible =>
    let infeasible_constraints := collectIIS model.constrs
    { status := "infeasible"
      solver_message := "The model is infeasible"
      infeasible_constraints :=
        some (if infeasible_constraints ≠ [] then InfeasibleInfo.names infeasible_constraints
              else InfeasibleInfo.unknown) }
  | GRBStatus.unbounded =>
    { status := "unbounded"
      solver_message := "The model is unbounded (no finite optimal solution exists)" }
  | GRBStatus.other code =>
    { status := "error"
      solver_message := s!"Optimization status: {code}" }

end ProductionOptimizerBase

/-- Direction of a linear constraint. -/
inductive ConstrSense : Type where
  | le
  | ge
deriving DecidableEq, Repr

/-- Direction of the objective. -/
inductive ObjSense : Type where
  | maximize
  | minimize
deriving DecidableEq, Repr

/-- A decision variable handed to the engine: name and bounds
(`ub = none` is `+∞`). -/
structure VarDecl : Type where
  name : String
  lb : ℚ
  ub : Option ℚ
deriving DecidableEq, Repr

/-- A named linear constraint handed to the engine.  Terms are keyed by the
`production_vars` dict key, i.e. the product name. -/
structure LinConstr : Type where
  name : String
  terms : List (String × ℚ)
  sense : ConstrSense
  rhs : ℚ
deriving DecidableEq, Repr

/-- Everything a production optimizer has loaded into the engine by the time
it calls `optimize()`. -/
structure BuiltModel : Type where
  model_name : String
  vars : List VarDecl
  obj_sense : ObjSense
  objective : List (String × ℚ)
  constrs : List LinConstr
deriving DecidableEq, Repr

namespace ProductionOptimizerBase

/-- `_extract_common_data` (base.py:86-109): objective tag plus the three
dicts keyed by name.  Raises `KeyError` exactly where the comprehensions
would. -/
def extract_common_data (data : PyData) :
    PyM (String × List (String × ProductEntry) × List (String × ResourceEntry) ×
         List (String × List (String × ℚ))) := do
  let objective_type ← pyGet data.objective "objective"
  let productList ← pyGet data.products "products"
  let mut products : List (String × ProductEntry) := []
  for p in productList do
    let n ← pyGet p.name "name"
    products := dictInsert products n p
  let resourceList ← pyGet data.resources "resources"
  let mut resources : List (String × ResourceEntry) := []
  for r in resourceList do
    let n ← pyGet r.name "name"
    resources := dictInsert resources n r
  let ruList ← pyGet data.resource_usage "resource_usage"
  let mut resource_usage : List (String × List (String × ℚ)) := []
  for ru in ruList do
    let pn ← pyGet ru.product_name "product_name"
    let rn ← pyGet ru.resource_name "resource_name"
    let upu ← pyGet ru.usage_per_unit "usage_per_unit"
    let inner := pyGetD (alistGet resource_usage pn) []
    resource_usage := dictInsert resource_usage pn (dictInsert inner rn upu)
  return (objective_type, products, resources, resource_usage)

/-- `_set_objective` (base.py:124-144): profit coefficients under
`maximize_profit`, cost coefficients otherwise. -/
def set_objective (objective_type : String) (products : List (String × ProductEntry)) :
    PyM (ObjSense × List (String × ℚ)) := do
  if objective_type = "maximize_profit" then
    let mut objective : List (String × ℚ) := []
    for p in products do
      let profit ← pyGet p.2.profit_per_unit "profit_per_unit"
      objective := objective ++ [(p.1, profit)]
    return (ObjSense.maximize, objective)
  else
    let mut objective : List (String × ℚ) := []
    for p in products do
      let cost ← pyGet p.2.cost_per_unit "cost_per_unit"
      objective := objective ++ [(p.1, cost)]
    return (ObjSense.minimize, objective)

/-- `_add_resource_constraints` (base.py:146-164): one `≤ capacity`
constraint per resource, with a term for every product whose usage of the
resource is recorded. -/
def add_resource_constraints (resources : List (String × ResourceEntry))
    (products : List (String × ProductEntry))
    (resource_usage : List (String × List (String × ℚ))) : PyM (List LinConstr) := do
  let mut constrs : List LinConstr := []
  for r in resources do
    let mut terms : List (String × ℚ) := []
    for p in products do
      match alistGet resource_usage p.1 with
      | none => pure ()
      | some inner =>
        match alistGet inner r.1 with
        | none => pure ()
        | some usage => terms := terms ++ [(p.1, usage)]
    let cap ← pyGet r.2.available_capacity "available_capacity"
    constrs := constrs ++
      [{ name := "resource_" ++ r.1, terms := terms, sense := ConstrSense.le, rhs := cap }]
  return constrs

/-- `_add_total_product_constraints` (base.py:166-196).  The `none` case
also covers the falsy-dict guard at the call sites
(`if 'total_constraints' in data and data['total_constraints']:`).  Each
bound is added only when present, non-null and strictly positive. -/
def add_total_product_constraints (products : List (String × ProductEntry))
    (total_constraints : Option TotalEntry) : List LinConstr :=
  match total_constraints with
  | none => []
  | some tc =>
    let total_terms := products.map (fun p => (p.1, (1 : ℚ)))
    let minPart := match tc.min_total with
      | some min_total =>
        if min_total > 0 then
          [{ name := "min_total_production", terms := total_terms
             sense := ConstrSense.ge, rhs := min_total }]
        else []
      | none => []
    let maxPart := match tc.max_total with
      | some max_total =>
        if max_total > 0 then
          [{ name := "max_total_production", terms := total_terms
             sense := ConstrSense.le, rhs := max_total }]
        else []
      | none => []
    minPart ++ maxPart

end ProductionOptimizerBase

namespace BasicProductionOptimizer

/-- `_create_production_variables` (basic_production.py:65-83): continuous,
lower bound `0`, no upper bound. -/
def create_production_variables (products : List (String × ProductEntry)) : List VarDecl :=
  products.map (fun p => { name := "produce_" ++ p.1, lb := (0 : ℚ), ub := none })

/-- The model `BasicProductionOptimizer.solve` (basic_production.py:20-56)
has loaded into the engine when it reaches `model.optimize()`. -/
def buildModel (data : PyData) : PyM BuiltModel := do
  let (objective_type, products, resources, resource_usage) ←
    ProductionOptimizerBase.extract_common_data data
  let production_vars := create_production_variables products
  let (obj_sense, objective) ← ProductionOptimizerBase.set_objective objective_type products
  let resource_constrs ←
    ProductionOptimizerBase.add_resource_constraints resources products resource_usage
  let total_constrs :=
    ProductionOptimizerBase.add_total_product_constraints products data.total_constraints
  return { model_name := "basic_production_optimization"
           vars := production_vars
           obj_sense := obj_sense
           objective := objective
           constrs := resource_constrs ++ total_constrs }

end BasicProductionOptimizer

namespace DemandConstrainedOptimizer

/-- The bound computation of
`_create_production_variables_with_demand` (demand_production.py:81-97) for
one product: start from `lb = 0`, `ub = +∞`; apply `min_demand` and
`max_demand` when present and non-null; clamp `ub := lb` when the computed
`lb` exceeds the computed `ub`. -/
def demandBounds (demand_constraints : List (String × DemandEntry))
    (product_name : String) : ℚ × Option ℚ :=
  let lb : ℚ := 0
  let ub : Option ℚ := none
  match alistGet demand_constraints product_name with
  | none => (lb, ub)
  | some constraint =>
    let lb := match constraint.min_demand with
      | some m => max 0 m
      | none => lb
    let ub := match constraint.max_demand with
      | some m => if lb > m then some lb else some m
      | none => ub
    (lb, ub)

/-- `_create_production_variables_with_demand`
(demand_production.py:68-105). -/
def create_production_variables_with_demand (products : List (String × ProductEntry))
    (demand_constraints : List (String × DemandEntry)) : List VarDecl :=
  products.map (fun p =>
    let bounds := demandBounds demand_constraints p.1
    { name := "produce_" ++ p.1, lb := bounds.1, ub := bounds.2 })

/-- The variable bounds exactly as §4.2 of the spec words them:
`lb(x_p) = max(0, min_demand)` if present else `0`; `ub(x_p) = max_demand`
if present else `+∞`; if the computed `lb > ub`, clamp `ub := lb`. -/
def demandBoundsSpec (demand_constraints : List (String × DemandEntry))
    (product_name : String) : ℚ × Option ℚ :=
  let dc := alistGet demand_constraints product_name
  let lb : ℚ := match dc.bind (fun c => c.min_demand) with
    | some m => max 0 m
    | none => 0
  let ub : Option ℚ := dc.bind (fun c => c.max_demand)
  match ub with
  | some m => if lb > m then (lb, some lb) else (lb, some m)
  | none => (lb, none)

/-- `lb ≤ ub`, reading `ub = none` as `+∞`. -/
def boundsConsistent (v : VarDecl) : Prop :=
  match v.ub with
  | none => True
  | some q => v.lb ≤ q

end DemandConstrainedOptimizer

namespace VRPSolver

/-- The inner `for j in range(num_locations)` with `break`
(solver.py:127-130): the first `j < fuel + start` positions are scanned in
increasing order from `j`; the first index different from `current` whose
arc value exceeds `0.5` is selected. -/
def findNextFrom (x : ℕ → ℕ → ℕ → ℚ) (k current : ℕ) : ℕ → ℕ → Option ℕ
  | _, 0 => none
  | j, fuel + 1 =>
    if j ≠ current ∧ x current j k > 1 / 2 then some j
    else findNextFrom x k current (j + 1) fuel

/-- Scan `j in range(num_locations)` for the next stop of vehicle `k`. -/
def findNextStop (num_locations : ℕ) (x : ℕ → ℕ → ℕ → ℚ) (k current : ℕ) : Option ℕ :=
  findNextFrom x k current 0 num_locations

/-- The `while True` route-following loop (solver.py:125-138), with explicit
fuel: append the selected stop, stop on the depot (appending it) or when no
outgoing arc is selected.  On the arc values of an optimal solve the loop
terminates within `num_locations` steps, which is the fuel the caller
passes. -/
def routeLoop (num_locations depot_idx : ℕ) (x : ℕ → ℕ → ℕ → ℚ) (k : ℕ) :
    ℕ → ℕ → List ℕ → List ℕ
  | 0, _, route => route
  | fuel + 1, current, route =>
    match findNextStop num_locations x k current with
    | none => route
    | some next_stop =>
      if next_stop = depot_idx then route ++ [depot_idx]
      else routeLoop num_locations depot_idx x k fuel next_stop (route ++ [next_stop])

/-- Route extraction (solver.py:119-144): one route per vehicle, kept only
when it visits at least one customer (`len(route) > 2`), empty slots
filtered out. -/
def extractRoutes (num_locations depot_idx num_vehicles : ℕ)
    (x : ℕ → ℕ → ℕ → ℚ) : List (List ℕ) :=
  ((List.range num_vehicles).map (fun k =>
    let route := routeLoop num_locations depot_idx x k num_locations depot_idx [depot_idx]
    if route.length > 2 then route else [])).filter (fun r => r ≠ [])

/-- The per-route distance loop (solver.py:149-151): sum of the distance
matrix over consecutive pairs. -/
def routeDistance (dist : ℕ → ℕ → ℚ) : List ℕ → ℚ
  | i :: j :: rest => dist i j + routeDistance dist (j :: rest)
  | _ => 0

/-- A VRP result dict (solver.py:154-176). -/
structure VRPSolution : Type where
  routes : List (List ℕ)
  total_distance : ℚ
  status : String
deriving DecidableEq, Repr

/-- The outcome of the Gurobi run inside `VRPSolver.solve`: either
`optimize()` returned (with a final status and the solved arc values), or
the library raised a `GurobiError`. -/
inductive VRPRun : Type where
  | finished (status : GRBStatus) (x : ℕ → ℕ → ℕ → ℚ)
  | raised (msg : String)

/-- `VRPSolver.solve` (solver.py:47-176) downstream of the engine run:
extraction on optimal, the fixed no-solution dict on any other status, the
error dict when a `GurobiError` was raised. -/
def solve (num_locations depot_idx num_vehicles : ℕ) (dist : ℕ → ℕ → ℚ)
    (run : VRPRun) : VRPSolution :=
  match run with
  | VRPRun.raised e =>
    { routes := [], total_distance := 0, status := "Error: " ++ e }
  | VRPRun.finished status x =>
    if status = GRBStatus.optimal then
      let routes := extractRoutes num_locations depot_idx num_vehicles x
      let total_distance := routes.foldl (fun total r => total + routeDistance dist r) 0
      { routes := routes, total_distance := total_distance, status := "Optimal" }
    else
      { routes := [], total_distance := 0, status := "No solution found" }

end VRPSolver

/-- An optimizer as the factory sees it: something that turns a payload into
a result dict (possibly raising).  The engine run is inside `solve`. -/
structure Optimizer : Type where
  solve : PyData → PyM SolveResult

namespace OptimizerFactory

/-- `OptimizerFactory.get_optimizer` (factory.py:33-50): registry lookup;
raises `ValueError` on an unknown identifier. -/
def get_optimizer (registry : List (String × Optimizer)) (optimizer_type : String) :
    PyM Optimizer :=
  match alistGet registry optimizer_type with
  | some o => Except.ok o
  | none => Except.error (PyError.valueError ("Unknown optimizer type: " ++ optimizer_type))

/-- The post-solve feasibility step of `OptimizerFactory.optimize`
(factory.py:81-89): on an optimal result, run the verifier; downgrade the
status when it declares the solution infeasible, otherwise attach any
warnings. -/
def applySolutionCheck (result : SolveResult) (data : PyData) : PyM SolveResult := do
  if result.status = "optimal" then
    let (is_feasible, feasibility_warnings) ← validate_solution_feasibility result data
    if !is_feasible then
      return { result with status := "solution_warning"
                           feasibility_warnings := some feasibility_warnings }
    else if feasibility_warnings ≠ [] then
      -- Solution is feasible but with warnings
      return { result with feasibility_warnings := some feasibility_warnings }
    else
      return result
  else
    return result

/-- The result returned on input-validation failure (factory.py:71-75). -/
def validationErrorResult (validation_errors : List String) : SolveResult :=
  { status := "validation_error"
    solver_message := "Input validation failed"
    validation_errors := some validation_errors }

/-- `try: ... except ValueError as e: return {'status': 'error', ...}`
(factory.py:67-93): only `ValueError` is caught; other exceptions
propagate. -/
def catchValueError (m : PyM SolveResult) : PyM SolveResult :=
  match m with
  | Except.error (PyError.valueError msg) =>
    Except.ok { status := "error", solver_message := msg }
  | other => other

/-- `OptimizerFactory.optimize` (factory.py:52-93). -/
def optimize (registry : List (String × Optimizer)) (optimizer_type : String)
    (data : PyData) : PyM SolveResult :=
  catchValueError (do
    -- Validate input data
    let (is_valid, validation_errors) ← validate_optimization_input data
    if !is_valid then
      return validationErrorResult validation_errors
    -- Get the optimizer and solve
    let optimizer ← get_optimizer registry optimizer_type
    let result ← optimizer.solve data
    -- Validate solution feasibility if optimal
    applySolutionCheck result data)

end OptimizerFactory

/-- `ProductionOptimization.post` (api/endpoints/production.py:60-83):
dispatch to the factory; HTTP 400 only for `validation_error`, 200 for any
other returned result, 500 when an exception escapes the factory. -/
def productionOptimizationPost (registry : List (String × Optimizer))
    (optimizer_type : String) (data : PyData) : SolveResult × ℕ :=
  match OptimizerFactory.optimize registry optimizer_type data with
  | Except.ok result =>
    if result.status = "validation_error" then (result, 400) else (result, 200)
  | Except.error e =>
    ({ status := "error"
       solver_message := match e with
         | PyError.keyError k => s!"KeyError: {k}"
         | PyError.valueError m => m }, 500)

/-! ### Concrete fixtures used by counterexamples and witnesses -/

/-- A small valid request: product `A` (profit 3, cost 1), resource `R`
(capacity 100), usage `A` on `R` of 1 per unit. -/
def sampleRequest : PyData :=
  { objective := some "maximize_profit"
    products := some [{ name := some "A", profit_per_unit := some 3, cost_per_unit := some 1 }]
    resources := some [{ name := some "R", available_capacity := some 100 }]
    resource_usage := some
      [{ product_name := some "A", resource_name := some "R", usage_per_unit := some 1 }]
    demand_constraints := none
    total_constraints := none }

/-- An optimal result for `sampleRequest` whose only anomaly is a production
quantity of `1e-7`, inside the numerical-precision window `(0, 1e-6)`; the
reported utilization matches the recomputed one exactly and every capacity
and bound holds. -/
def tinyPlanResult : SolveResult :=
  { status := "optimal"
    solver_message := "Optimal solution found"
    objective_value := some (3 / 10000000)
    production_plan := [("A", 1 / 10000000)]
    resource_utilization :=
      [("R", { used := 1 / 10000000, available := 100, utilization_pct := 1 / 10000000 })]
    total_production := some (1 / 10000000) }

/-- An adapter injected into the registry that returns `tinyPlanResult`
(the style of scenario 5 in §8 of the spec). -/
def injectOptimizer : Optimizer := ⟨fun _ => Except.ok tinyPlanResult⟩

/-- A payload with one product but a `resource_usage` entry that lacks the
`product_name` key: the entry-level loop records an error for it, but the
per-product usage check then indexes the same entry unguarded. -/
def missingUsageKeyInput : PyData :=
  { objective := some "maximize_profit"
    products := some [{ name := some "A", profit_per_unit := some 1, cost_per_unit := some 1 }]
    resources := some []
    resource_usage := some [{ product_name := none, resource_name := none, usage_per_unit := none }]
    demand_constraints := none
    total_constraints := none }

/-- The payload with no keys at all. -/
def emptyRequest : PyData :=
  { objective := none
    products := none
    resources := none
    resource_usage := none
    demand_constraints := none
    total_constraints := none }

/-- Arc values of a solved 3-location VRP with one vehicle: the tour
`0 → 1 → 2 → 0`. -/
def tourArcs : ℕ → ℕ → ℕ → ℚ := fun i j _k =>
  if (i = 0 ∧ j = 1) ∨ (i = 1 ∧ j = 2) ∨ (i = 2 ∧ j = 0) then 1 else 0

/-- The assembled result for an optimal solve whose only variable has the
solved value `5e-9`, which the plan clamp rounds to zero. -/
def c3Result : SolveResult :=
  ProductionOptimizerBase.prepare_result
    { status := GRBStatus.optimal, objVal := 0, constrs := [] }
    [("A", 1 / 200000000)] [("R", 100)] [("A", [("R", 1)])]

/-- An optimal result for `sampleRequest` that triggers no warning at all:
plan `A = 10`, reported usage matching, all bounds satisfied. -/
def cleanPlanResult : SolveResult :=
  { status := "optimal"
    solver_message := "Optimal solution found"
    objective_value := some 30
    production_plan := [("A", 10)]
    resource_utilization := [("R", { used := 10, available := 100, utilization_pct := 10 })]
    total_production := some 10 }

/-- The model the basic optimizer builds from `sampleRequest`. -/
def sampleBasicModel : BuiltModel :=
  { model_name := "basic_production_optimization"
    vars := [{ name := "produce_A", lb := 0, ub := none }]
    obj_sense := ObjSense.maximize
    objective := [("A", 3)]
    constrs := [{ name := "resource_R", terms := [("A", 1)], sense := ConstrSense.le, rhs := 100 }] }

/-! ### Helper lemmas -/

theorem pyBind_ok {α β : Type} (a : α) (f : α → PyM β) :
    ((Except.ok a : PyM α) >>= f) = f a := rfl

theorem pyBind_error {α β : Type} (e : PyError) (f : α → PyM β) :
    ((Except.error e : PyM α) >>= f) = Except.error e := rfl

theorem pyPure_eq {α : Type} (a : α) : (pure a : PyM α) = Except.ok a := rfl

theorem pyMap_ok {α β : Type} (f : α → β) (a : α) :
    (f <$> (Except.ok a : PyM α)) = Except.ok (f a) := rfl

theorem pyMap_error {α β : Type} (f : α → β) (e : PyError) :
    (f <$> (Except.error e : PyM α)) = Except.error e := rfl

theorem foldl_add_map_sum {α : Type} (f : α → ℚ) :
    ∀ (l : List α) (a : ℚ), l.foldl (fun t e => t + f e) a = a + (l.map f).sum := by
  intro l
  induction l with
  | nil => intro a; simp
  | cons x xs ih => intro a; simp [ih, add_assoc]

theorem calculate_total_production_eq_sum (production_vars : List (String × ℚ)) :
    ProductionOptimizerBase.calculate_total_production production_vars =
      (production_vars.map Prod.snd).sum := by
  have h := foldl_add_map_sum (fun pv : String × ℚ => pv.2) production_vars 0
  simpa [ProductionOptimizerBase.calculate_total_production] using h

theorem collectIIS_foldl (l : List (String × Bool)) :
    ∀ acc : List String,
      l.foldl (fun acc c => if c.2 then acc ++ [c.1] else acc) acc =
        acc ++ (l.filter (fun c => c.2)).map Prod.fst := by
  induction l with
  | nil => intro acc; simp
  | cons c cs ih =>
    intro acc
    by_cases hc : c.2
    · simp [List.foldl_cons, hc, ih, List.filter_cons]
    · simp [List.foldl_cons, hc, ih, List.filter_cons]

theorem collectIIS_eq (constrs : List (String × Bool)) :
    ProductionOptimizerBase.collectIIS constrs =
      (constrs.filter (fun c => c.2)).map Prod.fst := by
  have h := collectIIS_foldl constrs []
  simpa [ProductionOptimizerBase.collectIIS] using h

theorem clamp_sum_eq (l : List (String × ℚ))
    (h : ∀ pv ∈ l, |pv.2| < 1 / 100000000 → pv.2 = 0) :
    ((l.map (fun pv =>
        if |pv.2| < 1 / 100000000 then (pv.1, (0 : ℚ)) else (pv.1, pv.2))).map
      Prod.snd).sum = (l.map Prod.snd).sum := by
  induction l with
  | nil => simp
  | cons pv rest ih =>
    have hrest := ih (fun q hq => h q (List.mem_cons_of_mem _ hq))
    simp only [List.map_cons, List.sum_cons]
    rw [hrest]
    by_cases hc : |pv.2| < 1 / 100000000
    · have hz : pv.2 = 0 := h pv (List.mem_cons_self _ _) hc
      rw [if_pos hc]
      rw [hz]
    · rw [if_neg hc]

theorem routeDistance_eq_zip (dist : ℕ → ℕ → ℚ) :
    ∀ r : List ℕ,
      VRPSolver.routeDistance dist r =
        ((r.zip r.tail).map (fun p => dist p.1 p.2)).sum := by
  intro r
  induction r with
  | nil => simp [VRPSolver.routeDistance]
  | cons i rest ih =>
    cases rest with
    | nil => simp [VRPSolver.routeDistance]
    | cons j rest2 =>
      simp only [VRPSolver.routeDistance, ih]
      simp

theorem findNextFrom_some (x : ℕ → ℕ → ℕ → ℚ) (k current : ℕ) :
    ∀ (fuel j0 j : ℕ), VRPSolver.findNextFrom x k current j0 fuel = some j →
      j0 ≤ j ∧ j < j0 + fuel ∧ j ≠ current ∧ x current j k > 1 / 2 ∧
      ∀ i, j0 ≤ i → i < j → i = current ∨ ¬(x current i k > 1 / 2) := by
  intro fuel
  induction fuel with
  | zero => intro j0 j h; exact absurd h (by simp [VRPSolver.findNextFrom])
  | succ fuel ih =>
    intro j0 j h
    unfold VRPSolver.findNextFrom at h
    by_cases hc : j0 ≠ current ∧ x current j0 k > 1 / 2
    · rw [if_pos hc] at h
      have hj : j = j0 := (Option.some.injEq _ _).mp h |>.symm
      subst hj
      exact ⟨le_refl _, by omega, hc.1, hc.2, by intro i h1 h2; omega⟩
    · rw [if_neg hc] at h
      obtain ⟨h1, h2, h3, h4, h5⟩ := ih (j0 + 1) j h
      refine ⟨by omega, by omega, h3, h4, ?_⟩
      intro i hi1 hi2
      by_cases hij : i = j0
      · subst hij
        by_cases hcur : i = current
        · exact Or.inl hcur
        · exact Or.inr (fun hx => hc ⟨hcur, hx⟩)
      · exact h5 i (by omega) hi2

theorem findNextFrom_none (x : ℕ → ℕ → ℕ → ℚ) (k current : ℕ) :
    ∀ (fuel j0 : ℕ), VRPSolver.findNextFrom x k current j0 fuel = none →
      ∀ i, j0 ≤ i → i < j0 + fuel → i = current ∨ ¬(x current i k > 1 / 2) := by
  intro fuel
  induction fuel with
  | zero => intro j0 _ i h1 h2; omega
  | succ fuel ih =>
    intro j0 h i h1 h2
    unfold VRPSolver.findNextFrom at h
    by_cases hc : j0 ≠ current ∧ x current j0 k > 1 / 2
    · rw [if_pos hc] at h
      exact absurd h (by simp)
    · rw [if_neg hc] at h
      by_cases hij : i = j0
      · subst hij
        by_cases hcur : i = current
        · exact Or.inl hcur
        · exact Or.inr (fun hx => hc ⟨hcur, hx⟩)
      · exact ih (j0 + 1) h i (by omega) (by omega)

/-! ### Claim theorems -/

/-- **C5.** On an infeasible engine status, the result assembler always
emits the `infeasible_constraints` field: it is the sentinel `"Unknown"`
exactly when no constraint carries the IIS flag, and otherwise it lists, in
model order, exactly the names of the constraints flagged by the IIS. -/
theorem C5_infeasible_reports_iis (model : SolvedModel)
    (production_vars resources : List (String × ℚ))
    (resource_usage : List (String × List (String × ℚ)))
    (h : model.status = GRBStatus.infeasible) :
    ∃ info,
      (ProductionOptimizerBase.prepare_result model production_vars resources
          resource_usage).infeasible_constraints = some info ∧
      (info = InfeasibleInfo.unknown ↔ ∀ c ∈ model.constrs, c.2 = false) ∧
      (∀ l, info = InfeasibleInfo.names l →
        l = (model.constrs.filter (fun c => c.2)).map Prod.fst) := by
  obtain ⟨st, objVal, constrs⟩ := model
  replace h : st = GRBStatus.infeasible := h
  subst h
  have hfield : (ProductionOptimizerBase.prepare_result
      { status := GRBStatus.infeasible, objVal := objVal, constrs := constrs }
      production_vars resources resource_usage).infeasible_constraints =
      some (if ProductionOptimizerBase.collectIIS constrs ≠ [] then
              InfeasibleInfo.names (ProductionOptimizerBase.collectIIS constrs)
            else InfeasibleInfo.unknown) := rfl
  by_cases hnil : ProductionOptimizerBase.collectIIS constrs = []
  · refine ⟨InfeasibleInfo.unknown, ?_, ?_, ?_⟩
    · rw [hfield]
      simp [hnil]
    · simp only [true_iff]
      intro c hc
      rw [collectIIS_eq, List.map_eq_nil_iff, List.filter_eq_nil_iff] at hnil
      have := hnil c hc
      simpa using this
    · intro l hl
      exact absurd hl (by simp)
  · refine ⟨InfeasibleInfo.names (ProductionOptimizerBase.collectIIS constrs), ?_, ?_, ?_⟩
    · rw [hfield]
      simp [hnil]
    · apply iff_of_false
      · simp
      · intro hall
        apply hnil
        rw [collectIIS_eq, List.map_eq_nil_iff]
        exact List.filter_eq_nil_iff.mpr (by intro c hc; simp [hall c hc])
    · intro l hl
      have : l = ProductionOptimizerBase.collectIIS constrs :=
        ((InfeasibleInfo.names.injEq _ _).mp hl).symm
      rw [this, collectIIS_eq]

/-- Witness for C5 at a concrete infeasible model with one flagged and one
unflagged constraint. -/
theorem C5_infeasible_reports_iis_witness :
    ∃ info,
      (ProductionOptimizerBase.prepare_result
          { status := GRBStatus.infeasible, objVal := 0
            constrs := [("resource_R", true), ("min_total_production", false)] }
          [] [] []).infeasible_constraints = some info ∧
      (info = InfeasibleInfo.unknown ↔
        ∀ c ∈ [("resource_R", true), ("min_total_production", false)], c.2 = false) ∧
      (∀ l, info = InfeasibleInfo.names l →
        l = ([("resource_R", true), ("min_total_production", false)].filter
              (fun c : String × Bool => c.2)).map Prod.fst) :=
  C5_infeasible_reports_iis
    { status := GRBStatus.infeasible, objVal := 0
      constrs := [("resource_R", true), ("min_total_production", false)] }
    [] [] [] rfl

/-- **C6.** The demand-constrained builder creates every production variable
with exactly the bounds the spec describes (`lb = max(0, min_demand)` or
`0`, `ub = max_demand` or `+∞`, with `ub` clamped up to `lb` when needed),
and the emitted bounds always satisfy `lb ≤ ub`. -/
theorem C6_demand_bounds_spec (products : List (String × ProductEntry))
    (demand_constraints : List (String × DemandEntry)) :
    DemandConstrainedOptimizer.create_production_variables_with_demand products
        demand_constraints =
      products.map (fun p =>
        { name := "produce_" ++ p.1
          lb := (DemandConstrainedOptimizer.demandBoundsSpec demand_constraints p.1).1
          ub := (DemandConstrainedOptimizer.demandBoundsSpec demand_constraints p.1).2 }) ∧
    ∀ v ∈ DemandConstrainedOptimizer.create_production_variables_with_demand products
        demand_constraints,
      DemandConstrainedOptimizer.boundsConsistent v := by
  have hbounds : ∀ p : String,
      DemandConstrainedOptimizer.demandBounds demand_constraints p =
        DemandConstrainedOptimizer.demandBoundsSpec demand_constraints p := by
    intro p
    unfold DemandConstrainedOptimizer.demandBounds DemandConstrainedOptimizer.demandBoundsSpec
    cases hdc : alistGet demand_constraints p with
    | none => rfl
    | some c =>
      obtain ⟨pn, mind, maxd⟩ := c
      cases mind <;> cases maxd <;> simp <;> split_ifs <;> rfl
  have hcons : ∀ p : String,
      DemandConstrainedOptimizer.boundsConsistent
        { name := "produce_" ++ p
          lb := (DemandConstrainedOptimizer.demandBounds demand_constraints p).1
          ub := (DemandConstrainedOptimizer.demandBounds demand_constraints p).2 } := by
    intro p
    unfold DemandConstrainedOptimizer.demandBounds
    cases hdc : alistGet demand_constraints p with
    | none => trivial
    | some c =>
      obtain ⟨pn, mind, maxd⟩ := c
      cases mind with
      | none =>
        cases maxd with
        | none => trivial
        | some M =>
          show DemandConstrainedOptimizer.boundsConsistent
            { name := "produce_" ++ p, lb := 0
              ub := if (0 : ℚ) > M then some 0 else some M }
          split_ifs with hlt
          · exact le_refl _
          · exact le_of_not_lt hlt
      | some m =>
        cases maxd with
        | none => trivial
        | some M =>
          show DemandConstrainedOptimizer.boundsConsistent
            { name := "produce_" ++ p, lb := max 0 m
              ub := if max 0 m > M then some (max 0 m) else some M }
          split_ifs with hlt
          · exact le_refl _
          · exact le_of_not_lt hlt
  have hmapeq : DemandConstrainedOptimizer.create_production_variables_with_demand products
      demand_constraints =
      products.map (fun p =>
        { name := "produce_" ++ p.1
          lb := (DemandConstrainedOptimizer.demandBoundsSpec demand_constraints p.1).1
          ub := (DemandConstrainedOptimizer.demandBoundsSpec demand_constraints p.1).2 }) := by
    unfold DemandConstrainedOptimizer.create_production_variables_with_demand
    apply List.map_congr_left
    intro p _
    rw [← hbounds p.1]
  refine ⟨hmapeq, ?_⟩
  intro v hv
  unfold DemandConstrainedOptimizer.create_production_variables_with_demand at hv
  obtain ⟨p, _, hp⟩ := List.mem_map.mp hv
  rw [← hp]
  exact hcons p.1

/-- Witness for C6: product `A` with `min_demand = 5 > max_demand = 3` gets
the clamped bounds `lb = 5`, `ub = 5`, which are consistent. -/
theorem C6_demand_bounds_spec_witness :
    DemandConstrainedOptimizer.boundsConsistent
      { name := "produce_A", lb := 5, ub := some 5 } := by
  have h := (C6_demand_bounds_spec
    [("A", { name := some "A", profit_per_unit := some 3, cost_per_unit := some 1 })]
    [("A", { product_name := some "A", min_demand := some 5, max_demand := some 3 })]).2
  have hv : ({ name := "produce_A", lb := 5, ub := some 5 } : VarDecl) ∈
      DemandConstrainedOptimizer.create_production_variables_with_demand
        [("A", { name := some "A", profit_per_unit := some 3, cost_per_unit := some 1 })]
        [("A", { product_name := some "A", min_demand := some 5, max_demand := some 3 })] := by
    unfold DemandConstrainedOptimizer.create_production_variables_with_demand
      DemandConstrainedOptimizer.demandBounds
    simp [alistGet]
    norm_num
  exact h _ hv

/-- **C9.** `OptimizerFactory.optimize` validates before it touches the
registry: on any payload the validator rejects, the result is the
`validation_error` envelope carrying the validator's messages, for every
registry whatsoever (in particular no optimizer is instantiated and no
model is built). -/
theorem C9_validation_precedes_lookup (registry : List (String × Optimizer))
    (optimizer_type : String) (data : PyData) (errs : List String)
    (h : validate_optimization_input data = Except.ok (false, errs)) :
    OptimizerFactory.optimize registry optimizer_type data =
      Except.ok (OptimizerFactory.validationErrorResult errs) := by
  unfold OptimizerFactory.optimize
  rw [h]
  rfl

/-- Witness for C9: the empty payload fails validation with the four
missing-field messages, and `optimize` returns the `validation_error`
envelope for an empty registry and an unregistered identifier. -/
theorem C9_validation_precedes_lookup_witness :
    OptimizerFactory.optimize [] "no-such-optimizer" emptyRequest =
      Except.ok (OptimizerFactory.validationErrorResult
        ["Missing required field: objective", "Missing required field: products",
         "Missing required field: resources", "Missing required field: resource_usage"]) :=
  C9_validation_precedes_lookup [] "no-such-optimizer" emptyRequest
    ["Missing required field: objective", "Missing required field: products",
     "Missing required field: resources", "Missing required field: resource_usage"] rfl

/-- **C10.** `VRPSolver.solve` returns exactly
`{routes := [], total_distance := 0, status := "No solution found"}` when
the engine finishes with any non-optimal status, and exactly
`{routes := [], total_distance := 0, status := "Error: " ++ msg}` when the
solver library raises. -/
theorem C10_vrp_non_optimal (num_locations depot_idx num_vehicles : ℕ)
    (dist : ℕ → ℕ → ℚ) (status : GRBStatus) (x : ℕ → ℕ → ℕ → ℚ) (e : String) :
    (status ≠ GRBStatus.optimal →
      VRPSolver.solve num_locations depot_idx num_vehicles dist
          (VRPSolver.VRPRun.finished status x) =
        { routes := [], total_distance := 0, status := "No solution found" }) ∧
    VRPSolver.solve num_locations depot_idx num_vehicles dist
        (VRPSolver.VRPRun.raised e) =
      { routes := [], total_distance := 0, status := "Error: " ++ e } := by
  constructor
  · intro hne
    simp [VRPSolver.solve, hne]
  · rfl

/-- Witness for C10 at an infeasible finish and a concrete raised error. -/
theorem C10_vrp_non_optimal_witness :
    VRPSolver.solve 3 0 1 (fun _ _ => 1)
        (VRPSolver.VRPRun.finished GRBStatus.infeasible tourArcs) =
      { routes := [], total_distance := 0, status := "No solution found" } ∧
    VRPSolver.solve 3 0 1 (fun _ _ => 1) (VRPSolver.VRPRun.raised "out of memory") =
      { routes := [], total_distance := 0, status := "Error: out of memory" } :=
  ⟨(C10_vrp_non_optimal 3 0 1 (fun _ _ => 1) GRBStatus.infeasible tourArcs
      "out of memory").1 (by simp),
   (C10_vrp_non_optimal 3 0 1 (fun _ _ => 1) GRBStatus.infeasible tourArcs
      "out of memory").2⟩

/-- **C3 counterexample.** An optimal solve whose only variable value is
`5e-9`: the reported plan clamps it to `0`, so the plan values sum to `0`,
while `total_production` is `5e-9` — farther than `1e-9` from the plan sum.
The claimed `1e-9` agreement is therefore false as stated. -/
theorem C3_total_production_tolerance_cex :
    c3Result.status = "optimal" ∧
    c3Result.total_production = some (1 / 200000000) ∧
    (c3Result.production_plan.map Prod.snd).sum = 0 ∧
    ¬(|(1 / 200000000 : ℚ) - 0| ≤ 1 / 1000000000) := by
  have habs : |(1 / 200000000 : ℚ)| < 1 / 100000000 := by
    rw [abs_of_pos (by norm_num)]
    norm_num
  have hplan : c3Result.production_plan = [("A", 0)] := by
    show [(("A" : String), (1 / 200000000 : ℚ))].map (fun pv =>
        if |pv.2| < 1 / 100000000 then (pv.1, (0 : ℚ)) else (pv.1, pv.2)) = [("A", 0)]
    rw [List.map_cons, List.map_nil, if_pos habs]
  refine ⟨rfl, ?_, ?_, ?_⟩
  · show some (ProductionOptimizerBase.calculate_total_production [("A", 1 / 200000000)]) = _
    rw [calculate_total_production_eq_sum]
    simp
  · rw [hplan]
    simp
  · rw [sub_zero, abs_of_pos (by norm_num)]
    norm_num

/-- **C3 (amended).** In every optimal result, `total_production` equals the
sum of the raw (unclamped) solved variable values exactly; and whenever no
nonzero value falls below the `1e-8` clamp threshold, it also equals the sum
of the reported plan values exactly (hence within `1e-9`). -/
theorem C3_total_production_raw_sum (model : SolvedModel)
    (production_vars resources : List (String × ℚ))
    (resource_usage : List (String × List (String × ℚ)))
    (h : model.status = GRBStatus.optimal) :
    (ProductionOptimizerBase.prepare_result model production_vars resources
        resource_usage).total_production = some ((production_vars.map Prod.snd).sum) ∧
    ((∀ pv ∈ production_vars, |pv.2| < 1 / 100000000 → pv.2 = 0) →
      ((ProductionOptimizerBase.prepare_result model production_vars resources
          resource_usage).production_plan.map Prod.snd).sum =
        (production_vars.map Prod.snd).sum) := by
  obtain ⟨st, objVal, constrs⟩ := model
  replace h : st = GRBStatus.optimal := h
  subst h
  constructor
  · show some (ProductionOptimizerBase.calculate_total_production production_vars) = _
    rw [calculate_total_production_eq_sum]
  · intro hnc
    show ((production_vars.map (fun pv =>
        if |pv.2| < 1 / 100000000 then (pv.1, (0 : ℚ)) else (pv.1, pv.2))).map
      Prod.snd).sum = _
    exact clamp_sum_eq production_vars hnc

/-- Witness for the amended C3 at a one-variable optimal solve with value
`10` (no clamped entry). -/
theorem C3_total_production_raw_sum_witness :
    (ProductionOptimizerBase.prepare_result
        { status := GRBStatus.optimal, objVal := 30, constrs := [] }
        [("A", 10)] [("R", 100)] [("A", [("R", 1)])]).total_production =
      some (([(("A" : String), (10 : ℚ))].map Prod.snd).sum) ∧
    ((ProductionOptimizerBase.prepare_result
        { status := GRBStatus.optimal, objVal := 30, constrs := [] }
        [("A", 10)] [("R", 100)] [("A", [("R", 1)])]).production_plan.map
      Prod.snd).sum = ([(("A" : String), (10 : ℚ))].map Prod.snd).sum := by
  have h := C3_total_production_raw_sum
    { status := GRBStatus.optimal, objVal := 30, constrs := [] }
    [("A", 10)] [("R", 100)] [("A", [("R", 1)])] rfl
  refine ⟨h.1, h.2 ?_⟩
  intro pv hpv habs
  have hpv' : pv = ("A", (10 : ℚ)) := by simpa using hpv
  rw [hpv'] at habs
  rw [show |(10 : ℚ)| = 10 from abs_of_pos (by norm_num)] at habs
  norm_num at habs

/-- **C8.** The basic optimizer's model is independent of any
`demand_constraints` in the payload (its builder never reads the field),
and every production variable it creates has lower bound `0` and no upper
bound. -/
theorem C8_basic_ignores_demand (data : PyData) (dcs : Option (List DemandEntry)) :
    BasicProductionOptimizer.buildModel { data with demand_constraints := dcs } =
      BasicProductionOptimizer.buildModel data ∧
    ∀ m, BasicProductionOptimizer.buildModel data = Except.ok m →
      ∀ v ∈ m.vars, v.lb = 0 ∧ v.ub = none := by
  constructor
  · rfl
  · intro m hm v hv
    unfold BasicProductionOptimizer.buildModel at hm
    cases h1 : ProductionOptimizerBase.extract_common_data data with
    | error e => simp [h1, pyBind_error] at hm
    | ok quad =>
      obtain ⟨ot, ps, rs, ru⟩ := quad
      simp only [h1, pyBind_ok] at hm
      cases h2 : ProductionOptimizerBase.set_objective ot ps with
      | error e => simp [h2, pyBind_error] at hm
      | ok osobj =>
        obtain ⟨os, obj⟩ := osobj
        simp only [h2, pyBind_ok] at hm
        cases h3 : ProductionOptimizerBase.add_resource_constraints rs ps ru with
        | error e => simp [h3, pyBind_error] at hm
        | ok rc =>
          simp only [h3, pyBind_ok, pyPure_eq, Except.ok.injEq] at hm
          have hvars : m.vars = BasicProductionOptimizer.create_production_variables ps := by
            rw [← hm]
          rw [hvars] at hv
          unfold BasicProductionOptimizer.create_production_variables at hv
          obtain ⟨p, _, hp⟩ := List.mem_map.mp hv
          exact ⟨by rw [← hp], by rw [← hp]⟩

/-- Witness for C8 at `sampleRequest`: the single variable `produce_A` of
the built model has bounds `(0, +∞)`. -/
theorem C8_basic_ignores_demand_witness :
    ({ name := "produce_A", lb := 0, ub := none } : VarDecl).lb = 0 ∧
    ({ name := "produce_A", lb := 0, ub := none } : VarDecl).ub = none :=
  (C8_basic_ignores_demand sampleRequest none).2 sampleBasicModel rfl
    { name := "produce_A", lb := 0, ub := none } (by simp [sampleBasicModel])

/-- **C7.** Route extraction from the binary arc values of an optimal VRP
solve: the next stop chosen from `current` is the smallest destination
index with arc value above `0.5` (and none exists exactly when no index
qualifies); every route the solver returns has length greater than 2; and
the reported total distance is the sum over the returned routes of the
distance-matrix entries along their consecutive arcs. -/
theorem C7_route_extraction (num_locations depot_idx num_vehicles : ℕ)
    (x : ℕ → ℕ → ℕ → ℚ) (dist : ℕ → ℕ → ℚ) :
    (∀ current k j, VRPSolver.findNextStop num_locations x k current = some j →
      j < num_locations ∧ j ≠ current ∧ x current j k > 1 / 2 ∧
      ∀ i, i < j → i ≠ current → ¬(x current i k > 1 / 2)) ∧
    (∀ current k, VRPSolver.findNextStop num_locations x k current = none →
      ∀ j, j < num_locations → j ≠ current → ¬(x current j k > 1 / 2)) ∧
    (∀ r ∈ (VRPSolver.solve num_locations depot_idx num_vehicles dist
        (VRPSolver.VRPRun.finished GRBStatus.optimal x)).routes, r.length > 2) ∧
    (VRPSolver.solve num_locations depot_idx num_vehicles dist
        (VRPSolver.VRPRun.finished GRBStatus.optimal x)).total_distance =
      (((VRPSolver.solve num_locations depot_idx num_vehicles dist
          (VRPSolver.VRPRun.finished GRBStatus.optimal x)).routes).map
        (fun r => ((r.zip r.tail).map (fun p => dist p.1 p.2)).sum)).sum := by
  have hsolve : VRPSolver.solve num_locations depot_idx num_vehicles dist
      (VRPSolver.VRPRun.finished GRBStatus.optimal x) =
      { routes := VRPSolver.extractRoutes num_locations depot_idx num_vehicles x
        total_distance := (VRPSolver.extractRoutes num_locations depot_idx
            num_vehicles x).foldl (fun total r => total + VRPSolver.routeDistance dist r) 0
        status := "Optimal" } := rfl
  refine ⟨?_, ?_, ?_, ?_⟩
  · intro current k j h
    obtain ⟨h1, h2, h3, h4, h5⟩ := findNextFrom_some x k current num_locations 0 j h
    refine ⟨by omega, h3, h4, ?_⟩
    intro i hi1 hi2
    rcases h5 i (by omega) hi1 with hcur | hnx
    · exact absurd hcur hi2
    · exact hnx
  · intro current k h j hj1 hj2
    rcases findNextFrom_none x k current num_locations 0 h j (by omega) (by omega) with
      hcur | hnx
    · exact absurd hcur hj2
    · exact hnx
  · intro r hr
    rw [hsolve] at hr
    unfold VRPSolver.extractRoutes at hr
    have hr' := List.mem_filter.mp hr
    obtain ⟨k, _, hk⟩ := List.mem_map.mp hr'.1
    by_cases hlen : (VRPSolver.routeLoop num_locations depot_idx x k num_locations
        depot_idx [depot_idx]).length > 2
    · rw [if_pos hlen] at hk
      rw [← hk]
      exact hlen
    · rw [if_neg hlen] at hk
      exact absurd hr'.2 (by rw [← hk]; simp)
  · rw [hsolve]
    show ((VRPSolver.extractRoutes num_locations depot_idx num_vehicles x).foldl
        (fun total r => total + VRPSolver.routeDistance dist r) 0) = _
    rw [foldl_add_map_sum (VRPSolver.routeDistance dist)]
    rw [zero_add]
    congr 1
    apply List.map_congr_left
    intro r _
    exact routeDistance_eq_zip dist r

/-- Witness for C7 on the concrete 3-location tour: the theorem applied to
the arc-selection step out of the depot yields that arc `0 → 1` is
selected and has value above `0.5`. -/
theorem C7_route_extraction_witness : tourArcs 0 1 0 > 1 / 2 := by
  have hfind : VRPSolver.findNextStop 3 tourArcs 0 0 = some 1 := by
    norm_num [VRPSolver.findNextStop, VRPSolver.findNextFrom, tourArcs]
  exact ((C7_route_extraction 3 0 1 tourArcs (fun _ _ => 1)).1 0 0 1 hfind).2.2.1

/-- **C1 counterexample.** A full factory run on the valid `sampleRequest`
with an injected adapter returning `tinyPlanResult`: the verifier produces
only the pure numerical-precision warning for product `A` (no capacity or
bound violation), yet the status is downgraded from `optimal` to
`solution_warning` — refuting both directions of the claim. -/
theorem C1_numeric_warning_downgrades_cex :
    validate_optimization_input sampleRequest = Except.ok (true, []) ∧
    validate_solution_feasibility tinyPlanResult sampleRequest =
      Except.ok (false, [Warning.numericPrecision "A" (1 / 10000000)]) ∧
    OptimizerFactory.optimize [("inject", injectOptimizer)] "inject" sampleRequest =
      Except.ok { tinyPlanResult with
        status := "solution_warning"
        feasibility_warnings := some [Warning.numericPrecision "A" (1 / 10000000)] } := by
  refine ⟨rfl, ?_, ?_⟩
  · norm_num [validate_solution_feasibility, feasibilityWarnings, tinyPlanResult,
      sampleRequest, pyGet, pyGetD, dictInsert, dictAddM, alistGet, alistHas,
      pyBind_ok, pyBind_error, pyPure_eq, pyMap_ok, pyMap_error,
      List.forIn_cons, List.forIn_nil, abs_sub_comm, sub_self, abs_zero]
  · norm_num [OptimizerFactory.optimize, OptimizerFactory.catchValueError,
      OptimizerFactory.get_optimizer, OptimizerFactory.applySolutionCheck,
      injectOptimizer, validate_optimization_input, anyUsageForProduct, setAdd,
      validate_solution_feasibility, feasibilityWarnings, tinyPlanResult,
      sampleRequest, pyGet, pyGetD, dictInsert, dictAddM, alistGet, alistHas,
      pyBind_ok, pyBind_error, pyPure_eq, pyMap_ok, pyMap_error,
      List.forIn_cons, List.forIn_nil, abs_sub_comm, sub_self, abs_zero]

/-- **C1 (amended).** After an optimal solve, the factory downgrades the
status to `solution_warning` exactly when the feasibility verifier emitted
*any* warning — numerical-precision and usage-reconciliation warnings
included — attaching the warnings in either downgrade case; only a result
with no warnings at all keeps status `optimal` (the code's
feasible-but-with-warnings branch is unreachable, because the verifier
declares a solution infeasible whenever its warning list is nonempty). -/
theorem C1_downgrade_iff_any_warning (result : SolveResult) (data : PyData) (b : Bool)
    (w : List Warning) (hopt : result.status = "optimal")
    (hval : validate_solution_feasibility result data = Except.ok (b, w)) :
    (w = [] → OptimizerFactory.applySolutionCheck result data = Except.ok result) ∧
    (w ≠ [] → OptimizerFactory.applySolutionCheck result data =
      Except.ok { result with
        status := "solution_warning"
        feasibility_warnings := some w }) := by
  have hbw : b = (w.length == 0) := by
    have hval' := hval
    simp only [validate_solution_feasibility, hopt] at hval'
    rw [if_neg (by simp)] at hval'
    cases hfw : feasibilityWarnings result data with
    | error e =>
      rw [hfw, pyBind_error] at hval'
      exact absurd hval' (by simp)
    | ok w2 =>
      rw [hfw, pyBind_ok, pyPure_eq] at hval'
      have hpair := (Except.ok.injEq _ _).mp hval'
      injection hpair with hb hw
      rw [← hb, ← hw]
  constructor
  · intro hwnil
    subst hwnil
    have hb : b = true := by rw [hbw]; rfl
    subst hb
    unfold OptimizerFactory.applySolutionCheck
    rw [if_pos hopt, hval, pyBind_ok]
    rfl
  · intro hwne
    have hb : b = false := by
      rw [hbw]
      cases w with
      | nil => exact absurd rfl hwne
      | cons a l => rfl
    subst hb
    unfold OptimizerFactory.applySolutionCheck
    rw [if_pos hopt, hval, pyBind_ok]
    rfl

/-- Witness for the amended C1: on a clean optimal result (no warning at
all) the post-solve check leaves the result untouched. -/
theorem C1_downgrade_iff_any_warning_witness :
    OptimizerFactory.applySolutionCheck cleanPlanResult sampleRequest =
      Except.ok cleanPlanResult := by
  have hval : validate_solution_feasibility cleanPlanResult sampleRequest =
      Except.ok (true, []) := by
    norm_num [validate_solution_feasibility, feasibilityWarnings, cleanPlanResult,
      sampleRequest, pyGet, pyGetD, dictInsert, dictAddM, alistGet, alistHas,
      pyBind_ok, pyBind_error, pyPure_eq, pyMap_ok, pyMap_error,
      List.forIn_cons, List.forIn_nil, abs_sub_comm, sub_self, abs_zero]
  exact (C1_downgrade_iff_any_warning cleanPlanResult sampleRequest true [] rfl hval).1 rfl

/-- **C2 (evaluation at the failing input).** POSTing a valid payload to an
unknown optimizer identifier: the registry lookup raises the
unknown-optimizer `ValueError`, the factory converts it to a `status =
"error"` result, and the endpoint returns it with HTTP **200** — not the
documented 400. -/
theorem C2_unknown_optimizer_http200 (basicOpt demandOpt : Optimizer) :
    productionOptimizationPost [("basic", basicOpt), ("demand-constrained", demandOpt)]
        "nonexistent" sampleRequest =
      ({ status := "error", solver_message := "Unknown optimizer type: nonexistent" },
        200) := rfl

/-- **C4 (evaluation at the failing input).** On a payload whose
`resource_usage` entry lacks `product_name`, the validator raises a
modelled `KeyError` from the per-product usage check instead of returning
the `(is_valid, errors)` pair. -/
theorem C4_validator_key_error :
    validate_optimization_input missingUsageKeyInput =
      Except.error (PyError.keyError "product_name") := rfl

end ProjetRO
